import Mathlib

/-!
Shallow embedding of the spot-ui React application (src/spot-ui/src):
the session lifecycle in `App.jsx`, token ingestion in `Callback.jsx`,
and the profile aggregation / on-demand detail fetching in
`components/Profile.jsx`.  Fetches are modelled by passing their
outcomes in explicitly; React state updates become pure state
transformers.
-/

/-- The durable client-local token store (`localStorage` under the key
`spotify_access_token`): `none` when the key is absent, `some s` when it
holds the string `s`.  `localStorage.getItem` returns `null` for an
absent key, hence `Option`. -/
abbrev TokenStore := Option String

/-- JavaScript truthiness of the value returned by
`localStorage.getItem` / `searchParams.get`: `null` and the empty
string are falsy, every other string is truthy. -/
def truthy : Option String → Bool
  | none => false
  | some s => s ≠ ""

/-- The React state of the `App` component (`App.jsx`): the
`isAuthenticated` and `accessToken` `useState` cells, together with the
token store the component reads and writes. -/
structure AppState where
  isAuthenticated : Bool
  accessToken : Option String
  store : TokenStore
  deriving Repr, DecidableEq

/-- State of `App` as mounted, after the `useEffect` on lines 12-19 of
`App.jsx` has run: start from `useState(false)` / `useState(null)`,
read the store, and if the value is truthy set the token and the
authenticated flag. -/
def App.initState (store : TokenStore) : AppState :=
  let s0 : AppState := ⟨false, none, store⟩
  match store with
  | some token =>
      if token ≠ "" then
        { s0 with accessToken := some token, isAuthenticated := true }
      else s0
  | none => s0

/-- `handleLogout` (`App.jsx` lines 26-30): remove the stored token,
null the in-memory token, clear the authenticated flag. -/
def handleLogout (s : AppState) : AppState :=
  { s with store := none, accessToken := none, isAuthenticated := false }

/-- `handleAuthSuccess` (`App.jsx` lines 32-36): persist the token to
the store, hold it in memory, set the authenticated flag. -/
def handleAuthSuccess (s : AppState) (token : String) : AppState :=
  { s with store := some token, accessToken := some token,
           isAuthenticated := true }

/-- Navigable destinations of the router in `App.jsx`. -/
inductive Dest where
  | home
  | callback
  | profile
  deriving Repr, DecidableEq

/-- Effect of the `Callback` component (`Callback.jsx` lines 8-19) on
arrival with query parameter `?token=...` (`tokenParam`, `none` when
absent): a truthy token is handed to `handleAuthSuccess` and navigation
goes to `/profile`; otherwise nothing is stored and navigation goes to
`/`. -/
def Callback.run (s : AppState) (tokenParam : Option String) :
    AppState × Dest :=
  match tokenParam with
  | some token =>
      if token ≠ "" then (handleAuthSuccess s token, Dest.profile)
      else (s, Dest.home)
  | none => (s, Dest.home)

/-- What the router renders for a destination (`App.jsx` lines 41-70). -/
inductive RenderedView where
  | homeView (isAuthenticated : Bool)
  | callbackView
  | profileView (accessToken : Option String)
  | redirectHome
  deriving Repr, DecidableEq

/-- The route table of `App.jsx` (lines 41-70): `/` renders `Home`,
`/callback` renders `Callback`, `/profile` renders `Profile` when
`isAuthenticated` and otherwise `<Navigate to="/" replace />`. -/
def App.route (s : AppState) (d : Dest) : RenderedView :=
  match d with
  | Dest.home => RenderedView.homeView s.isAuthenticated
  | Dest.callback => RenderedView.callbackView
  | Dest.profile =>
      if s.isAuthenticated then RenderedView.profileView s.accessToken
      else RenderedView.redirectHome

/-- React state of the `Profile` component (`Profile.jsx` lines 5-11).
Profile and detail bodies are opaque upstream JSON, modelled as
strings; the top-item lists hold item ids. -/
structure ProfileState where
  profile : Option String
  topArtists : List String
  topTracks : List String
  loading : Bool
  error : Option String
  selectedArtist : Option String
  selectedTrack : Option String
  deriving Repr, DecidableEq

/-- The initial `useState` values of `Profile` (`Profile.jsx` lines
5-11): no profile, empty lists, loading, no error, no selection. -/
def ProfileState.init : ProfileState :=
  ⟨none, [], [], true, none, none, none⟩

/-- Body of a top-items response: `artistsData.items` may be absent or
null (`none`) or a list of item ids. -/
structure ListBody where
  items : Option (List String)
  deriving Repr, DecidableEq

/-- Outcome of one awaited `fetch` + `.json()` as the aggregator sees
it: either the whole await chain throws (`netError`, carrying
`error.message`), or a response arrives with its `ok` flag and parsed
body. -/
inductive FetchResult (α : Type) where
  | netError (msg : String)
  | response (ok : Bool) (body : α)
  deriving Repr, DecidableEq

/-- The three upstream outcomes a single `fetchProfileData` run can
observe: `/api/user`, `/api/top-artists`, `/api/top-tracks`. -/
structure FetchEnv where
  user : FetchResult String
  artists : FetchResult ListBody
  tracks : FetchResult ListBody

/-- The endpoints `fetchProfileData` can issue requests to, recorded in
issue order. -/
inductive Endpoint where
  | user
  | topArtists
  | topTracks
  deriving Repr, DecidableEq

/-- Whether an endpoint is one of the two secondary fetches. -/
def Endpoint.isSecondary : Endpoint → Bool
  | Endpoint.user => false
  | _ => true

/-- `fetchProfileData` (`Profile.jsx` lines 72-119), run to completion:
`setLoading(true)`; await `/api/user` — a throw or a non-ok response
(`throw new Error('Failed to fetch profile data')`) lands in the
`catch`, which sets `error`, and the `finally` clears `loading`;
on ok, `setProfile`, then await `/api/top-artists`: an ok response sets
`topArtists` to `items || []`, a non-ok response is skipped, a throw
lands in the `catch`; then `/api/top-tracks` the same way.  Returns the
final state and the list of endpoints fetched, in order. -/
def fetchProfileData (env : FetchEnv) (s : ProfileState) :
    ProfileState × List Endpoint :=
  let s := { s with loading := true }
  match env.user with
  | FetchResult.netError msg =>
      ({ s with error := some msg, loading := false }, [Endpoint.user])
  | FetchResult.response ok body =>
    if !ok then
      ({ s with error := some "Failed to fetch profile data",
                loading := false }, [Endpoint.user])
    else
      let s := { s with profile := some body }
      match env.artists with
      | FetchResult.netError msg =>
          ({ s with error := some msg, loading := false },
           [Endpoint.user, Endpoint.topArtists])
      | FetchResult.response aok abody =>
        let s := if aok then { s with topArtists := abody.items.getD [] }
                 else s
        match env.tracks with
        | FetchResult.netError msg =>
            ({ s with error := some msg, loading := false },
             [Endpoint.user, Endpoint.topArtists, Endpoint.topTracks])
        | FetchResult.response tok tbody =>
          let s := if tok then { s with topTracks := tbody.items.getD [] }
                   else s
          ({ s with loading := false },
           [Endpoint.user, Endpoint.topArtists, Endpoint.topTracks])

/-- What `Profile` renders (`Profile.jsx` lines 126-148): the loading
screen while `loading`, the full-screen error message when `error` is
set, otherwise the ready profile view. -/
inductive ViewState where
  | loadingView
  | errorView (msg : String)
  | ready
  deriving Repr, DecidableEq

/-- The render guard of `Profile` (`Profile.jsx` lines 126-148):
`if (loading) ...; if (error) ...;` then the ready view. -/
def ProfileState.view (s : ProfileState) : ViewState :=
  if s.loading then ViewState.loadingView
  else
    match s.error with
    | some m => ViewState.errorView m
    | none => ViewState.ready

/-- Outcome of one detail fetch (`/api/artist/{id}` or `/api/song/{id}`)
as `fetchArtistDetails` / `fetchTrackDetails` see it: the await chain
throws (`netError` with `error.message`), or an ok response whose json
is the detail record, or a non-ok response whose json is an error body
with an optional `error` field. -/
inductive DetailFetch where
  | netError (msg : String)
  | success (data : String)
  | failure (errField : Option String)
  deriving Repr, DecidableEq

/-- `fetchArtistDetails` (`Profile.jsx` lines 26-46): on ok,
`setSelectedArtist(artistData)`; on non-ok, set the shared `error` to
"Failed to fetch artist details: " plus `errorData.error || 'Unknown
error'`; on throw, set it to "Network error: " plus the message. -/
def fetchArtistDetails (r : DetailFetch) (s : ProfileState) :
    ProfileState :=
  match r with
  | DetailFetch.success d => { s with selectedArtist := some d }
  | DetailFetch.failure e =>
      let msg := "Failed to fetch artist details: " ++ e.getD "Unknown error"
      { s with error := some msg }
  | DetailFetch.netError m =>
      { s with error := some ("Network error: " ++ m) }

/-- `fetchTrackDetails` (`Profile.jsx` lines 49-69): same shape as
`fetchArtistDetails` against `/api/song/{id}`, writing
`selectedTrack`. -/
def fetchTrackDetails (r : DetailFetch) (s : ProfileState) :
    ProfileState :=
  match r with
  | DetailFetch.success d => { s with selectedTrack := some d }
  | DetailFetch.failure e =>
      let msg := "Failed to fetch track details: " ++ e.getD "Unknown error"
      { s with error := some msg }
  | DetailFetch.netError m =>
      { s with error := some ("Network error: " ++ m) }

/-- `closeArtistModal` (`Profile.jsx` lines 14-17): clear the selected
artist and any error. -/
def closeArtistModal (s : ProfileState) : ProfileState :=
  { s with selectedArtist := none, error := none }

/-- `closeTrackModal` (`Profile.jsx` lines 20-23): clear the selected
track and any error. -/
def closeTrackModal (s : ProfileState) : ProfileState :=
  { s with selectedTrack := none, error := none }

/-- Apply the completions of a sequence of artist-detail fetches in the
order their responses settle: each settling response runs the body of
`fetchArtistDetails` on the then-current state.  The code keeps no
request generation, so responses are applied exactly in settle
order. -/
def settleArtistFetches (s : ProfileState) (rs : List DetailFetch) :
    ProfileState :=
  rs.foldl (fun s r => fetchArtistDetails r s) s

/-- Claim C4: at process start, a truthy (non-empty, present) stored
token yields the authenticated state with that token in memory; an
absent or empty stored value yields the unauthenticated state with no
token in memory. -/
theorem initState_matches_store (store : TokenStore) :
    (App.initState store).isAuthenticated = truthy store ∧
    (App.initState store).accessToken =
      (if truthy store then store else none) ∧
    (App.initState store).store = store := by
  cases store with
  | none => simp [App.initState, truthy]
  | some t =>
      by_cases h : t = "" <;> simp [App.initState, truthy, h]

/-- Claim C7: logout clears the token store, drops the in-memory token
and forces the session to unauthenticated, whatever the prior state. -/
theorem logout_clears_everything (s : AppState) :
    handleLogout s = ⟨false, none, none⟩ := rfl

/-- Claim C5: arrival at the callback boundary with a non-empty token
parameter persists the token, authenticates the session and navigates
to the protected profile destination; with an absent or empty token
parameter the state (store included) is untouched and navigation goes
to the landing destination. -/
theorem callback_ingest (s : AppState) (tokenParam : Option String) :
    (∀ t, tokenParam = some t → t ≠ "" →
        Callback.run s tokenParam =
          ({ s with store := some t, accessToken := some t,
                    isAuthenticated := true }, Dest.profile)) ∧
    (truthy tokenParam = false →
        Callback.run s tokenParam = (s, Dest.home)) := by
  constructor
  · intro t ht hne
    subst ht
    simp [Callback.run, hne, handleAuthSuccess]
  · intro hf
    cases tokenParam with
    | none => rfl
    | some t =>
        have ht : t = "" := by simpa [truthy] using hf
        subst ht
        simp [Callback.run]

/-- Witness for `callback_ingest` at the scenario token "abc123" and at
an absent token. -/
theorem callback_ingest_witness :
    Callback.run ⟨false, none, none⟩ (some "abc123") =
      (⟨true, some "abc123", some "abc123"⟩, Dest.profile) ∧
    Callback.run ⟨false, none, none⟩ none =
      (⟨false, none, none⟩, Dest.home) :=
  ⟨(callback_ingest ⟨false, none, none⟩ (some "abc123")).1 "abc123" rfl
      (by decide),
   (callback_ingest ⟨false, none, none⟩ none).2 (by decide)⟩

/-- Claim C6: while the session is unauthenticated, a navigation to the
protected profile destination renders the redirect to the landing
destination, and the protected view is never rendered. -/
theorem route_guard_unauthenticated (s : AppState)
    (h : s.isAuthenticated = false) :
    App.route s Dest.profile = RenderedView.redirectHome ∧
    ∀ t, App.route s Dest.profile ≠ RenderedView.profileView t := by
  simp [App.route, h]

/-- Witness for `route_guard_unauthenticated` at a concrete
unauthenticated state. -/
theorem route_guard_unauthenticated_witness :
    App.route ⟨false, none, none⟩ Dest.profile =
      RenderedView.redirectHome ∧
    ∀ t, App.route ⟨false, none, none⟩ Dest.profile ≠
      RenderedView.profileView t :=
  route_guard_unauthenticated ⟨false, none, none⟩ rfl

/-- Claim C3: when the primary profile fetch fails — by throwing or by
a non-success status — the run ends in the error view state with a
message, and no secondary fetch is issued (secondary fetch count is
zero). -/
theorem primary_failure_fatal_no_secondary (env : FetchEnv)
    (s0 : ProfileState)
    (hfail : (∃ m, env.user = FetchResult.netError m) ∨
             ∃ b, env.user = FetchResult.response false b) :
    (∃ m, (fetchProfileData env s0).1.view = ViewState.errorView m) ∧
    ((fetchProfileData env s0).2.filter Endpoint.isSecondary).length
      = 0 := by
  rcases hfail with ⟨m, hm⟩ | ⟨b, hb⟩
  · simp [fetchProfileData, hm, ProfileState.view, Endpoint.isSecondary]
  · simp [fetchProfileData, hb, ProfileState.view, Endpoint.isSecondary]

/-- Witness for `primary_failure_fatal_no_secondary` at a concrete 401
style run. -/
theorem primary_failure_fatal_no_secondary_witness :
    (∃ m, (fetchProfileData
        ⟨FetchResult.response false "unauthorized",
         FetchResult.response true ⟨some ["a1"]⟩,
         FetchResult.response true ⟨some ["t1"]⟩⟩
        ProfileState.init).1.view = ViewState.errorView m) ∧
    ((fetchProfileData
        ⟨FetchResult.response false "unauthorized",
         FetchResult.response true ⟨some ["a1"]⟩,
         FetchResult.response true ⟨some ["t1"]⟩⟩
        ProfileState.init).2.filter Endpoint.isSecondary).length = 0 :=
  primary_failure_fatal_no_secondary _ ProfileState.init
    (Or.inr ⟨"unauthorized", rfl⟩)

/-- Claim C1 counterexample: the primary fetch succeeds and the
top-artists fetch fails with a network error, yet the run ends in the
error view state, not ready — refuting the claim that any secondary
failure (network error included) leaves the view ready. -/
theorem secondary_net_error_not_ready :
    (fetchProfileData
        ⟨FetchResult.response true "profileBody",
         FetchResult.netError "network down",
         FetchResult.response true ⟨some ["t1"]⟩⟩
        ProfileState.init).1.view =
      ViewState.errorView "network down" := by decide

/-- Claim C1 (amended): when the primary fetch succeeds and each
secondary fetch returns a response (rather than throwing), the run ends
ready, and a non-success secondary response leaves the corresponding
list empty; a secondary network error, by contrast, is caught by the
shared handler and produces the error state. -/
theorem secondary_status_failure_degrades (env : FetchEnv)
    (body : String) (aok tok : Bool) (abody tbody : ListBody)
    (hu : env.user = FetchResult.response true body)
    (ha : env.artists = FetchResult.response aok abody)
    (ht : env.tracks = FetchResult.response tok tbody) :
    (fetchProfileData env ProfileState.init).1.view = ViewState.ready ∧
    (aok = false →
      (fetchProfileData env ProfileState.init).1.topArtists = []) ∧
    (tok = false →
      (fetchProfileData env ProfileState.init).1.topTracks = []) := by
  obtain ⟨u, a, t⟩ := env
  cases hu; cases ha; cases ht
  cases aok <;> cases tok <;>
    simp [fetchProfileData, ProfileState.view, ProfileState.init]

/-- Witness for `secondary_status_failure_degrades`: top-artists
returns HTTP 500 (non-ok), top-tracks returns 200 with items. -/
theorem secondary_status_failure_degrades_witness :
    (fetchProfileData
        ⟨FetchResult.response true "profileBody",
         FetchResult.response false ⟨none⟩,
         FetchResult.response true ⟨some ["t1"]⟩⟩
        ProfileState.init).1.view = ViewState.ready ∧
    (false = false →
      (fetchProfileData
        ⟨FetchResult.response true "profileBody",
         FetchResult.response false ⟨none⟩,
         FetchResult.response true ⟨some ["t1"]⟩⟩
        ProfileState.init).1.topArtists = []) ∧
    (true = false →
      (fetchProfileData
        ⟨FetchResult.response true "profileBody",
         FetchResult.response false ⟨none⟩,
         FetchResult.response true ⟨some ["t1"]⟩⟩
        ProfileState.init).1.topTracks = []) :=
  secondary_status_failure_degrades _ "profileBody" false true ⟨none⟩
    ⟨some ["t1"]⟩ rfl rfl rfl

/-- Claim C10: a secondary fetch that returns a success status with a
missing (absent or null) items field sets the corresponding list to the
empty list, never an undefined value. -/
theorem missing_items_becomes_empty_list (env : FetchEnv)
    (body : String) (abody tbody : ListBody)
    (hu : env.user = FetchResult.response true body)
    (ha : env.artists = FetchResult.response true abody)
    (ht : env.tracks = FetchResult.response true tbody)
    (hai : abody.items = none) (hti : tbody.items = none) :
    (fetchProfileData env ProfileState.init).1.topArtists = [] ∧
    (fetchProfileData env ProfileState.init).1.topTracks = [] := by
  obtain ⟨u, a, t⟩ := env
  cases hu; cases ha; cases ht
  simp [fetchProfileData, ProfileState.init, hai, hti]

/-- Witness for `missing_items_becomes_empty_list` at concrete bodies
with no items field. -/
theorem missing_items_becomes_empty_list_witness :
    (fetchProfileData
        ⟨FetchResult.response true "profileBody",
         FetchResult.response true ⟨none⟩,
         FetchResult.response true ⟨none⟩⟩
        ProfileState.init).1.topArtists = [] ∧
    (fetchProfileData
        ⟨FetchResult.response true "profileBody",
         FetchResult.response true ⟨none⟩,
         FetchResult.response true ⟨none⟩⟩
        ProfileState.init).1.topTracks = [] :=
  missing_items_becomes_empty_list _ "profileBody" ⟨none⟩ ⟨none⟩
    rfl rfl rfl rfl rfl

/-- Claim C2 counterexample: from a ready state with rendered lists, a
failed artist-detail fetch writes the shared error cell, so the
component renders the full-screen error view instead of the ready
profile view — refuting the claim that the failure is confined to the
modal context while the ready view stays visible. -/
theorem detail_failure_replaces_ready_view :
    (ProfileState.view
        ⟨some "p", ["a1"], ["t1"], false, none, none, none⟩ =
      ViewState.ready) ∧
    (fetchArtistDetails (DetailFetch.failure (some "boom"))
        ⟨some "p", ["a1"], ["t1"], false, none, none, none⟩).view =
      ViewState.errorView "Failed to fetch artist details: boom" := by
  constructor <;> rfl

/-- Claim C2 (amended): a failed detail fetch (artist or track,
non-success status or network error) leaves the profile, top-artists
and top-tracks data cells unchanged, but writes the shared error cell,
so the rendered view becomes the full-screen error view (not ready)
until that error is cleared. -/
theorem detail_failure_shared_error (r : DetailFetch) (s : ProfileState)
    (hns : ∀ d, r ≠ DetailFetch.success d) (hl : s.loading = false) :
    (fetchArtistDetails r s).profile = s.profile ∧
    (fetchArtistDetails r s).topArtists = s.topArtists ∧
    (fetchArtistDetails r s).topTracks = s.topTracks ∧
    (∃ m, (fetchArtistDetails r s).view = ViewState.errorView m) ∧
    (fetchTrackDetails r s).profile = s.profile ∧
    (fetchTrackDetails r s).topArtists = s.topArtists ∧
    (fetchTrackDetails r s).topTracks = s.topTracks ∧
    ∃ m, (fetchTrackDetails r s).view = ViewState.errorView m := by
  cases r with
  | success d => exact absurd rfl (hns d)
  | failure e =>
      simp [fetchArtistDetails, fetchTrackDetails, ProfileState.view, hl]
  | netError m =>
      simp [fetchArtistDetails, fetchTrackDetails, ProfileState.view, hl]

/-- Witness for `detail_failure_shared_error` at a concrete ready state
and a non-success detail response. -/
theorem detail_failure_shared_error_witness :
    (fetchArtistDetails (DetailFetch.failure (some "boom"))
        ⟨some "p", ["a1"], ["t1"], false, none, none, none⟩).profile =
      some "p" ∧
    (fetchArtistDetails (DetailFetch.failure (some "boom"))
        ⟨some "p", ["a1"], ["t1"], false, none, none, none⟩).topArtists =
      ["a1"] ∧
    (fetchArtistDetails (DetailFetch.failure (some "boom"))
        ⟨some "p", ["a1"], ["t1"], false, none, none, none⟩).topTracks =
      ["t1"] ∧
    (∃ m, (fetchArtistDetails (DetailFetch.failure (some "boom"))
        ⟨some "p", ["a1"], ["t1"], false, none, none, none⟩).view =
      ViewState.errorView m) ∧
    (fetchTrackDetails (DetailFetch.failure (some "boom"))
        ⟨some "p", ["a1"], ["t1"], false, none, none, none⟩).profile =
      some "p" ∧
    (fetchTrackDetails (DetailFetch.failure (some "boom"))
        ⟨some "p", ["a1"], ["t1"], false, none, none, none⟩).topArtists =
      ["a1"] ∧
    (fetchTrackDetails (DetailFetch.failure (some "boom"))
        ⟨some "p", ["a1"], ["t1"], false, none, none, none⟩).topTracks =
      ["t1"] ∧
    ∃ m, (fetchTrackDetails (DetailFetch.failure (some "boom"))
        ⟨some "p", ["a1"], ["t1"], false, none, none, none⟩).view =
      ViewState.errorView m :=
  detail_failure_shared_error (DetailFetch.failure (some "boom"))
    ⟨some "p", ["a1"], ["t1"], false, none, none, none⟩
    (fun _ h => DetailFetch.noConfusion h) rfl

/-- Claim C8 counterexample: requests for artist X then artist Y are in
flight together; Y's response settles first and X's settles second, and
the view ends up showing X's detail, not Y's — refuting
last-request-wins for that completion order. -/
theorem stale_response_overwrites_newer :
    (settleArtistFetches ProfileState.init
        [DetailFetch.success "detailY",
         DetailFetch.success "detailX"]).selectedArtist =
      some "detailX" ∧ "detailX" ≠ "detailY" := by
  constructor <;> decide

/-- Claim C8 (amended): the detail fetchers carry no request
generation, so overlapping requests resolve last-completion-wins: after
any sequence of settled responses ending in a successful one, the view
shows the detail of that last-settled response, whichever request
issued it. -/
theorem last_completion_wins (s : ProfileState)
    (rs : List DetailFetch) (d : String) :
    (settleArtistFetches s
        (rs ++ [DetailFetch.success d])).selectedArtist = some d := by
  simp [settleArtistFetches, List.foldl_append, fetchArtistDetails]

/-- Claim C9: a successful detail fetch replaces whatever detail record
is currently displayed with the new one, and closing a modal clears
both its detail record and the error cell. -/
theorem detail_replace_and_close_clears (s : ProfileState)
    (dOld dNew : String) :
    (fetchArtistDetails (DetailFetch.success dNew)
        { s with selectedArtist := some dOld }).selectedArtist =
      some dNew ∧
    (fetchTrackDetails (DetailFetch.success dNew)
        { s with selectedTrack := some dOld }).selectedTrack =
      some dNew ∧
    (closeArtistModal s).selectedArtist = none ∧
    (closeArtistModal s).error = none ∧
    (closeTrackModal s).selectedTrack = none ∧
    (closeTrackModal s).error = none := by
  simp [fetchArtistDetails, fetchTrackDetails, closeArtistModal,
    closeTrackModal]
